import Mathlib

/-!
# Verification of `playdeckBridge.js`

A shallow embedding, in Lean 4, of the browser-side Unity/PlayDeck bridge
(`src/playdeckBridge.js`): the retrying message-delivery helper `sendToUnity`,
the Telegram Stars purchase flow (`starsIntegration` and
`PlayDeck_BuyItemWithStars`), the AdsGram detection/readiness state
(`adsState`, `detectAdsGram`, the init timer) and the stub surface installed at
module load.  JavaScript timers and promises are modelled by explicit,
deterministic event orderings (the page is single-threaded); machine-level
concerns (logging, the console) are omitted, and non-logging side effects are
recorded in explicit effect lists.
-/

namespace PlaydeckBridge

/-! ## Message Delivery: `sendToUnity` (source lines 17–38)

`sendToUnity` runs `trySend` immediately; `trySend` increments `tries`, probes
for a live Unity instance, sends and stops on success, gives up when
`tries * UNITY_SEND_RETRY_MS >= UNITY_SEND_MAX_RETRIES * UNITY_SEND_RETRY_MS`,
and otherwise schedules itself again after `UNITY_SEND_RETRY_MS` milliseconds.

The environment is abstracted as `avail : Nat → Bool`: whether, at the moment
the `t`-th attempt runs, a Unity instance with a callable `SendMessage` is
found (the `instance && typeof instance.SendMessage === 'function'` test,
including the case where the call throws — a throw is treated as a failed
attempt by the source's `catch`, so `avail t = true` means the attempt both
finds the instance and completes the call). -/

/-- Constant `UNITY_SEND_RETRY_MS` from the source configuration (line 8). -/
def UNITY_SEND_RETRY_MS : Nat := 250

/-- Constant `UNITY_SEND_MAX_RETRIES` from the source configuration (line 9). -/
def UNITY_SEND_MAX_RETRIES : Nat := 30

/-- One attempt of `trySend`: its 1-based index `idx` (the value of `tries`
during the attempt), the time in ms since the `sendToUnity` call at which it
runs, and whether `instance.SendMessage` was invoked by it. -/
structure Attempt where
  idx : Nat
  time : Nat
  delivered : Bool
deriving Repr, DecidableEq

/-- The sequence of attempts made by `trySend`, starting from counter value
`tries` (the source increments first, so the next attempt has index
`tries + 1` and runs at time `tries * UNITY_SEND_RETRY_MS`: every retry is
scheduled `UNITY_SEND_RETRY_MS` after the previous attempt).  On success the
attempt delivers and stops; otherwise, when
`tries * RETRY_MS >= MAX_RETRIES * RETRY_MS` (with `tries` already
incremented), it gives up without scheduling; else it schedules the next
attempt. -/
def trySendFrom (avail : Nat → Bool) (tries : Nat) : List Attempt :=
  if avail (tries + 1) then
    [⟨tries + 1, tries * UNITY_SEND_RETRY_MS, true⟩]
  else if UNITY_SEND_MAX_RETRIES * UNITY_SEND_RETRY_MS ≤ (tries + 1) * UNITY_SEND_RETRY_MS then
    [⟨tries + 1, tries * UNITY_SEND_RETRY_MS, false⟩]
  else
    ⟨tries + 1, tries * UNITY_SEND_RETRY_MS, false⟩ :: trySendFrom avail (tries + 1)
termination_by UNITY_SEND_MAX_RETRIES - tries
decreasing_by
  simp only [UNITY_SEND_MAX_RETRIES, UNITY_SEND_RETRY_MS] at *
  omega

/-- All attempts of one logical `sendToUnity` call (`tries` starts at 0). -/
def sendToUnityAttempts (avail : Nat → Bool) : List Attempt :=
  trySendFrom avail 0

/-- The attempts at which the host runtime (`instance.SendMessage`) is
actually called. -/
def hostCalls (avail : Nat → Bool) : List Attempt :=
  (sendToUnityAttempts avail).filter (fun a => a.delivered)

/-- The never-available environment: the instance never becomes available and
callable. -/
def neverAvail : Nat → Bool := fun _ => false

/-- Closed-form description of the tail of the attempt list in a
never-available environment: from counter `tries < 30`, the remaining attempts
are `tries+1, …, 30`, each at time `(idx-1) * 250`, none delivering. -/
theorem trySendFrom_neverAvail (avail : Nat → Bool) (h : ∀ t, avail t = false) :
    ∀ k tries, tries + k = UNITY_SEND_MAX_RETRIES → tries + 1 ≤ UNITY_SEND_MAX_RETRIES →
      trySendFrom avail tries =
        (List.range' (tries + 1) k).map (fun i => ⟨i, (i - 1) * UNITY_SEND_RETRY_MS, false⟩) := by
  intro k
  induction k with
  | zero =>
    intro tries h30 hle
    omega
  | succ n ih =>
    intro tries h30 hle
    rw [trySendFrom, h]
    simp only [UNITY_SEND_MAX_RETRIES, UNITY_SEND_RETRY_MS] at *
    by_cases hgiveup : 30 * 250 ≤ (tries + 1) * 250
    · have : tries + 1 = 30 := by omega
      have hn : n = 0 := by omega
      subst hn
      simp [List.range', hgiveup, this]
      omega
    · have hrec := ih (tries + 1) (by omega) (by omega)
      simp only [UNITY_SEND_MAX_RETRIES, UNITY_SEND_RETRY_MS] at hrec
      simp [hgiveup, hrec, List.range'_succ]

/-- C1 (amended): When the instance never becomes available, the attempts
of one logical `sendToUnity` call are exactly attempts `1, …, 30`, strictly
sequential with each attempt `i` running at time `(i-1) * 250` ms (consecutive
attempts 250 ms apart), none delivering; no attempt follows the 30th failure
(in particular there is no 31st attempt), and the host runtime is never
called. -/
theorem sendToUnity_neverAvail_gives_up_after_30 (avail : Nat → Bool)
    (h : ∀ t, avail t = false) :
    sendToUnityAttempts avail =
        (List.range' 1 UNITY_SEND_MAX_RETRIES).map
          (fun i => ⟨i, (i - 1) * UNITY_SEND_RETRY_MS, false⟩) ∧
      (sendToUnityAttempts avail).length = 30 ∧
      (∀ a ∈ sendToUnityAttempts avail, a.idx ≤ 30 ∧ a.time = (a.idx - 1) * 250) ∧
      hostCalls avail = [] := by
  have hmain := trySendFrom_neverAvail avail h UNITY_SEND_MAX_RETRIES 0 rfl (by decide)
  refine ⟨hmain, ?_, ?_, ?_⟩
  · rw [sendToUnityAttempts, hmain]
    simp [UNITY_SEND_MAX_RETRIES]
  · intro a ha
    rw [sendToUnityAttempts] at ha
    rw [hmain] at ha
    simp only [List.mem_map, List.mem_range'] at ha
    obtain ⟨i, hi, rfl⟩ := ha
    obtain ⟨j, hj, rfl⟩ := hi
    refine ⟨?_, rfl⟩
    simp only [UNITY_SEND_MAX_RETRIES] at hj
    show 0 + 1 + 1 * j ≤ 30
    omega
  · rw [hostCalls, sendToUnityAttempts, hmain]
    rw [List.filter_eq_nil_iff]
    intro a ha
    simp only [List.mem_map] at ha
    obtain ⟨i, _, rfl⟩ := ha
    simp

/-- Witness for `sendToUnity_neverAvail_gives_up_after_30` at the concrete
never-available environment. -/
theorem sendToUnity_neverAvail_gives_up_after_30_witness :
    (sendToUnityAttempts neverAvail).length = 30 ∧ hostCalls neverAvail = [] := by
  have h := sendToUnity_neverAvail_gives_up_after_30 neverAvail (fun _ => rfl)
  exact ⟨h.2.1, h.2.2.2⟩

/-- C1 (counterexample to the claim as stated): The claim asserts retries
continue until a 31st failure; in fact, in the never-available environment the
call makes exactly 30 attempts and no attempt with index 31 exists. -/
theorem sendToUnity_no_31st_attempt :
    (sendToUnityAttempts neverAvail).length = 30 ∧
      (sendToUnityAttempts neverAvail).all (fun a => a.idx ≠ 31) = true := by
  have h := sendToUnity_neverAvail_gives_up_after_30 neverAvail (fun _ => rfl)
  refine ⟨h.2.1, ?_⟩
  rw [List.all_eq_true]
  intro a ha
  have := (h.2.2.1 a ha).1
  simp only [decide_eq_true_eq]
  omega

/-! ## Telegram Stars purchase flow (source lines 75–271)

The flow is single-threaded and promise-based.  We embed it as pure functions
from a `PurchaseScenario` — the environment (`window.Telegram.WebApp`, its
`MainButton`, the user id from `initDataUnsafe`), whether the `MainButton`
configuration throws, the time of the user's click (if any) and the random
draw of the simulated payment — to the time-ordered list of values passed to
the promise's `resolve` and the list of non-logging side effects performed.
JavaScript promise semantics (only the first `resolve` call settles the
promise, later calls are no-ops) is `promiseOutcome` below. -/

/-- A `PurchaseResult` object as built by the source; absent fields are
`none`.  (The source never sets `invoice_id`; it is carried to state that.) -/
structure PurchaseResult where
  success : Bool
  error : Option String := none
  payment_id : Option String := none
  invoice_id : Option String := none
  item_id : Option String := none
  message : Option String := none
deriving Repr, DecidableEq

/-- JSON string literal (no escaping needed for the fixed strings the source
produces). -/
def jsonStr (s : String) : String := "\"" ++ s ++ "\""

/-- Serialization, as by `JSON.stringify`, of a result object, fields in the source's insertion
order, absent fields omitted. -/
def serializeResult (r : PurchaseResult) : String :=
  "\x7b\"success\":" ++ (if r.success then "true" else "false")
    ++ (match r.error with
        | some e => ",\"error\":" ++ jsonStr e
        | none => "")
    ++ (match r.payment_id with
        | some p => ",\"payment_id\":" ++ jsonStr p
        | none => "")
    ++ (match r.invoice_id with
        | some p => ",\"invoice_id\":" ++ jsonStr p
        | none => "")
    ++ (match r.item_id with
        | some p => ",\"item_id\":" ++ jsonStr p
        | none => "")
    ++ (match r.message with
        | some m => ",\"message\":" ++ jsonStr m
        | none => "")
    ++ "\x7d"

/-- The Telegram environment at the time of the purchase call:
`webApp` is the truthiness of `window.Telegram && window.Telegram.WebApp`,
`mainButton` the truthiness of `window.Telegram.WebApp.MainButton`, and
`userId` the value of `initDataUnsafe?.user?.id` (`none` when absent; the
source tests its JS truthiness, so `some 0` is also "not identified"). -/
structure TelegramEnv where
  webApp : Bool
  mainButton : Bool
  userId : Option Nat
deriving Repr, DecidableEq

/-- The random draw and clock reading of `simulateTelegramPayment`:
`success` is `Math.random() > 0.15`, `errIdx` is
`Math.floor(Math.random() * errors.length)` (a value in `0..3`), and `now` is
`Date.now()` at resolution time. -/
structure PaymentDraw where
  success : Bool
  errIdx : Fin 4
  now : Nat
deriving Repr, DecidableEq

/-- One invocation's scenario: the environment, whether a `MainButton`
configuration call throws (with the given message), the time in ms after the
button is shown at which the user clicks (if ever), and the simulated draw. -/
structure PurchaseScenario where
  env : TelegramEnv
  setupFails : Option String
  clickAt : Option Nat
  draw : PaymentDraw
deriving Repr, DecidableEq

/-- Non-logging side effects of the purchase flow.  `paymentPrimitive` stands
for an invocation of a real platform payment API (the source never issues
one: payment is simulated), `networkRequest` for any backend HTTP request
(the source issues none: backend verification was removed). -/
inductive Effect where
  | mainButtonSetText (label : String)
  | mainButtonShow
  | mainButtonHide
  | mainButtonShowProgress
  | mainButtonHideProgress
  | mainButtonOnClick
  | mainButtonOffClick
  | networkRequest (url : String)
  | paymentPrimitive
  | postMessageParent (method : String)
  | sendUnityMsg (objectName methodName message : String)
deriving Repr, DecidableEq

/-- Whether an effect is a backend network request. -/
def Effect.isNetworkRequest : Effect → Bool
  | .networkRequest _ => true
  | _ => false

/-- The four simulated failure strings of `simulateTelegramPayment`
(source lines 227–232). -/
def simulateErrors : List String :=
  ["Insufficient Stars balance", "Payment was cancelled",
   "Network error - please try again", "Transaction declined by Telegram"]

/-- Function `simulateTelegramPayment` (source lines 207–243): after the simulated
delay, resolves a success object with `payment_id = 'telegram_stars_' +
Date.now()` or a failure with one of the four fixed error strings. -/
def simulateTelegramPayment (itemId : String) (d : PaymentDraw) : PurchaseResult :=
  if d.success then
    { success := true
      payment_id := some ("telegram_stars_" ++ toString d.now)
      item_id := some itemId
      message := some "Payment completed successfully via Telegram Stars" }
  else
    { success := false, error := some (simulateErrors.get ⟨d.errIdx.val, d.errIdx.isLt⟩) }

/-- Function `processTelegramStarsPayment` (source lines 190–204): awaits the
simulation and returns its result (the simulation never rejects, so the
`catch` branch producing `'Payment processing failed'` is not reachable). -/
def processTelegramStarsPayment (itemId : String) (d : PaymentDraw) : PurchaseResult :=
  simulateTelegramPayment itemId d

/-- The 2-minute auto-cancel delay (source line 179). -/
def PAYMENT_TIMEOUT_MS : Nat := 120000

/-- The simulated processing delay (source line 241). -/
def SIMULATE_DELAY_MS : Nat := 1500

/-- The timeout resolution value (source line 177). -/
def timeoutResult : PurchaseResult :=
  { success := false, error := some "Payment timeout - please try again" }

/-- The `MainButton` label set by `setupMainButtonPayment` (source line 141). -/
def buttonLabel (itemName : String) (starsCost : Nat) : String :=
  "Purchase " ++ itemName ++ " - " ++ toString starsCost ++ " ⭐"

/-- Function `setupMainButtonPayment` (source lines 138–187), as the time-ordered list
of values passed to `resolve` and the list of effects.  Timer semantics:
the button is shown at time 0 and the auto-cancel timer fires at
`PAYMENT_TIMEOUT_MS`; a click at time `t < PAYMENT_TIMEOUT_MS` runs the
handler (`showProgress`, then the simulated payment resolves at
`t + SIMULATE_DELAY_MS`, then the `finally` cleanup `offClick`/`hide`/
`hideProgress`); the auto-cancel callback resolves the timeout error only if
the button is still visible when it fires, i.e. unless the cleanup's `hide`
ran strictly before `PAYMENT_TIMEOUT_MS` (at an equal deadline the earlier-
registered auto-cancel timer fires first); a click at `t ≥ PAYMENT_TIMEOUT_MS`
finds the handler already detached and has no effect. -/
def setupMainButtonPayment (itemId : String) (starsCost : Nat) (itemName : String)
    (sc : PurchaseScenario) : List PurchaseResult × List Effect :=
  match sc.setupFails with
  | some m =>
      ([{ success := false, error := some ("Payment setup failed: " ++ m) }],
       [Effect.mainButtonHide])
  | none =>
      let base := [Effect.mainButtonSetText (buttonLabel itemName starsCost),
                   Effect.mainButtonShow, Effect.mainButtonOnClick]
      match sc.clickAt with
      | none =>
          ([timeoutResult], base ++ [Effect.mainButtonOffClick, Effect.mainButtonHide])
      | some t =>
          if t < PAYMENT_TIMEOUT_MS then
            if t + SIMULATE_DELAY_MS < PAYMENT_TIMEOUT_MS then
              ([processTelegramStarsPayment itemId sc.draw],
               base ++ [Effect.mainButtonShowProgress, Effect.mainButtonOffClick,
                        Effect.mainButtonHide, Effect.mainButtonHideProgress])
            else
              ([timeoutResult, processTelegramStarsPayment itemId sc.draw],
               base ++ [Effect.mainButtonShowProgress, Effect.mainButtonOffClick,
                        Effect.mainButtonHide, Effect.mainButtonOffClick,
                        Effect.mainButtonHide, Effect.mainButtonHideProgress])
          else
            ([timeoutResult], base ++ [Effect.mainButtonOffClick, Effect.mainButtonHide])

/-- Function `createTelegramPayment` (source lines 107–135): checks the WebApp, the
`MainButton` and the user id in that order, short-circuiting with the
corresponding failure resolution, then hands off to
`setupMainButtonPayment`. -/
def createTelegramPayment (itemId : String) (starsCost : Nat) (itemName : String)
    (sc : PurchaseScenario) : List PurchaseResult × List Effect :=
  if sc.env.webApp = false then
    ([{ success := false, error := some "Telegram WebApp not available" }], [])
  else if sc.env.mainButton = false then
    ([{ success := false, error := some "Telegram payments not supported" }], [])
  else if sc.env.userId.getD 0 = 0 then
    ([{ success := false, error := some "User not identified" }], [])
  else
    setupMainButtonPayment itemId starsCost itemName sc

/-- Function `purchaseItem` (source lines 84–104): checks `isAvailable()` and returns
the not-available failure, else awaits `createTelegramPayment` and returns
its result unchanged (the promise never rejects, so the `catch` branch is
not reachable). -/
def purchaseItem (itemId : String) (starsCost : Nat) (itemName : String)
    (sc : PurchaseScenario) : List PurchaseResult × List Effect :=
  if sc.env.webApp = false then
    ([{ success := false, error := some "Telegram WebApp not available" }], [])
  else
    createTelegramPayment itemId starsCost itemName sc

/-- JS promise resolution: the first `resolve` settles the promise, later
calls are no-ops. -/
def resolveOnce (s : Option PurchaseResult) (r : PurchaseResult) : Option PurchaseResult :=
  match s with
  | some r0 => some r0
  | none => some r

/-- The settled value of a promise given the time-ordered `resolve` calls. -/
def promiseOutcome (events : List PurchaseResult) : Option PurchaseResult :=
  events.foldl resolveOnce none

/-- A message handed to Message Delivery (`sendToUnity`). -/
structure SendMsg where
  objectName : String
  methodName : String
  message : String
deriving Repr, DecidableEq

/-- Function `PlayDeck_BuyItemWithStars` (source lines 250–271): runs `purchaseItem`
and relays the settled result, serialized, to
`TelegramStarsManager.OnPurchaseResult` via `sendToUnity`; the returned list
is the sequence of messages handed to Message Delivery. -/
def PlayDeck_BuyItemWithStars (itemId : String) (starsCost : Nat) (itemName : String)
    (sc : PurchaseScenario) : List SendMsg :=
  match promiseOutcome (purchaseItem itemId starsCost itemName sc).1 with
  | some r => [⟨"TelegramStarsManager", "OnPurchaseResult", serializeResult r⟩]
  | none => []

/-- Once settled, later `resolve` calls never change the outcome. -/
theorem foldl_resolveOnce_some (r : PurchaseResult) (l : List PurchaseResult) :
    l.foldl resolveOnce (some r) = some r := by
  induction l with
  | nil => rfl
  | cons a l ih => simpa [resolveOnce] using ih

/-- The settled value of a promise is the first `resolve` call's value. -/
theorem promiseOutcome_eq_headOpt (events : List PurchaseResult) :
    promiseOutcome events = events.head? := by
  cases events with
  | nil => rfl
  | cons a l =>
      simp [promiseOutcome, resolveOnce, foldl_resolveOnce_some]

/-- Every path of the purchase flow resolves at least once. -/
theorem purchaseResolutions_ne_nil (itemId : String) (starsCost : Nat) (itemName : String)
    (sc : PurchaseScenario) :
    (purchaseItem itemId starsCost itemName sc).1 ≠ [] := by
  rcases sc with ⟨⟨webApp, mainButton, userId⟩, setupFails, clickAt, draw⟩
  simp only [purchaseItem, createTelegramPayment, setupMainButtonPayment]
  rcases setupFails with _ | m <;> rcases clickAt with _ | t <;>
    split_ifs <;> try simp
  all_goals split_ifs <;> simp

/-- Simulated payment results never carry an `invoice_id`. -/
theorem simulate_invoice_id_none (itemId : String) (d : PaymentDraw) :
    (simulateTelegramPayment itemId d).invoice_id = none := by
  rw [simulateTelegramPayment]
  split_ifs <;> rfl

/-- C2: Every invocation of `PlayDeck_BuyItemWithStars` hands exactly one
message to Message Delivery, always to the fixed target pair
`TelegramStarsManager.OnPurchaseResult`, carrying the JSON serialization of
the settled `PurchaseResult`; the settled result is the first value ever
passed to `resolve` (later resolutions — e.g. the loser of the click/timeout
race — are no-ops), and the embedding is a total function, so no exception
reaches the caller. -/
theorem buyItemWithStars_exactly_one_result (itemId : String) (starsCost : Nat)
    (itemName : String) (sc : PurchaseScenario) :
    ∃ r, PlayDeck_BuyItemWithStars itemId starsCost itemName sc =
        [⟨"TelegramStarsManager", "OnPurchaseResult", serializeResult r⟩] ∧
      (purchaseItem itemId starsCost itemName sc).1.head? = some r ∧
      promiseOutcome (purchaseItem itemId starsCost itemName sc).1 = some r := by
  cases hevs : (purchaseItem itemId starsCost itemName sc).1 with
  | nil => exact absurd hevs (purchaseResolutions_ne_nil itemId starsCost itemName sc)
  | cons r rest =>
      refine ⟨r, ?_, ?_, ?_⟩
      · simp only [PlayDeck_BuyItemWithStars, promiseOutcome_eq_headOpt, hevs, List.head?]
      · rfl
      · rw [promiseOutcome_eq_headOpt]
        rfl

/-- C3: Direct-UI strategy with no user interaction within the 120 s
window (no click, or only a click at or after the timeout): the flow resolves
exactly the timeout failure `{success: false, error: "Payment timeout -
please try again"}`, the affordance is hidden and the click handler detached
by the timeout callback, and the handler never runs (no `showProgress`), so a
late click has no effect. -/
theorem mainButton_timeout_no_interaction (itemId : String) (starsCost : Nat)
    (itemName : String) (sc : PurchaseScenario)
    (hweb : sc.env.webApp = true) (hmb : sc.env.mainButton = true)
    (huser : sc.env.userId.getD 0 ≠ 0) (hsetup : sc.setupFails = none)
    (hclick : ∀ t, sc.clickAt = some t → PAYMENT_TIMEOUT_MS ≤ t) :
    (purchaseItem itemId starsCost itemName sc).1 = [timeoutResult] ∧
      timeoutResult = { success := false,
                        error := some "Payment timeout - please try again" } ∧
      (purchaseItem itemId starsCost itemName sc).2 =
        [Effect.mainButtonSetText (buttonLabel itemName starsCost), Effect.mainButtonShow,
         Effect.mainButtonOnClick, Effect.mainButtonOffClick, Effect.mainButtonHide] ∧
      Effect.mainButtonShowProgress ∉ (purchaseItem itemId starsCost itemName sc).2 := by
  cases hc : sc.clickAt with
  | none =>
      refine ⟨?_, rfl, ?_, ?_⟩ <;>
        simp [purchaseItem, createTelegramPayment, setupMainButtonPayment,
              hweb, hmb, huser, hsetup, hc]
  | some t =>
      have ht : ¬ t < PAYMENT_TIMEOUT_MS := by
        have := hclick t hc
        omega
      refine ⟨?_, rfl, ?_, ?_⟩ <;>
        simp [purchaseItem, createTelegramPayment, setupMainButtonPayment,
              hweb, hmb, huser, hsetup, hc, ht]

/-- Concrete scenario for the C3 witness: full environment, no click ever. -/
def c3Scenario : PurchaseScenario :=
  ⟨⟨true, true, some 7⟩, none, none, ⟨true, 0, 0⟩⟩

/-- Witness for `mainButton_timeout_no_interaction` at a concrete scenario. -/
theorem mainButton_timeout_no_interaction_witness :
    (purchaseItem "sword" 10 "Sword" c3Scenario).1 = [timeoutResult] ∧
      timeoutResult = { success := false,
                        error := some "Payment timeout - please try again" } ∧
      (purchaseItem "sword" 10 "Sword" c3Scenario).2 =
        [Effect.mainButtonSetText (buttonLabel "Sword" 10), Effect.mainButtonShow,
         Effect.mainButtonOnClick, Effect.mainButtonOffClick, Effect.mainButtonHide] ∧
      Effect.mainButtonShowProgress ∉ (purchaseItem "sword" 10 "Sword" c3Scenario).2 :=
  mainButton_timeout_no_interaction "sword" 10 "Sword" c3Scenario rfl rfl
    (by decide) rfl (fun t h => by simp [c3Scenario] at h)

/-- C4: With `window.Telegram.WebApp` absent, the flow resolves exactly
`{success: false, error: "Telegram WebApp not available"}`, performs no side
effect at all (no network request, the `MainButton` is never configured or
shown), and relays exactly that result. -/
theorem purchase_webApp_absent (itemId : String) (starsCost : Nat) (itemName : String)
    (sc : PurchaseScenario) (h : sc.env.webApp = false) :
    (purchaseItem itemId starsCost itemName sc).1 =
        [{ success := false, error := some "Telegram WebApp not available" }] ∧
      (purchaseItem itemId starsCost itemName sc).2 = [] ∧
      PlayDeck_BuyItemWithStars itemId starsCost itemName sc =
        [⟨"TelegramStarsManager", "OnPurchaseResult",
          serializeResult { success := false, error := some "Telegram WebApp not available" }⟩] := by
  have hp : purchaseItem itemId starsCost itemName sc =
      ([{ success := false, error := some "Telegram WebApp not available" }], []) := by
    simp [purchaseItem, h]
  refine ⟨by rw [hp], by rw [hp], ?_⟩
  simp only [PlayDeck_BuyItemWithStars, hp, promiseOutcome_eq_headOpt, List.head?]

/-- Concrete scenario for the C4 witness: no Telegram WebApp. -/
def c4Scenario : PurchaseScenario :=
  ⟨⟨false, false, none⟩, none, none, ⟨true, 0, 0⟩⟩

/-- Witness for `purchase_webApp_absent` at a concrete scenario. -/
theorem purchase_webApp_absent_witness :
    (purchaseItem "gem" 5 "Gem" c4Scenario).1 =
        [{ success := false, error := some "Telegram WebApp not available" }] ∧
      (purchaseItem "gem" 5 "Gem" c4Scenario).2 = [] ∧
      PlayDeck_BuyItemWithStars "gem" 5 "Gem" c4Scenario =
        [⟨"TelegramStarsManager", "OnPurchaseResult",
          serializeResult { success := false, error := some "Telegram WebApp not available" }⟩] :=
  purchase_webApp_absent "gem" 5 "Gem" c4Scenario rfl

/-- Concrete scenario for the C5 counterexample: WebApp present, `MainButton`
absent, no user id. -/
def c5Scenario : PurchaseScenario :=
  ⟨⟨true, false, none⟩, none, none, ⟨true, 0, 0⟩⟩

/-- C5 (counterexample to the claim as stated): A purchase issued while
the platform object (`window.Telegram.WebApp`) is present but its
`MainButton` is absent and no user id is resolvable resolves to
`{success: false, error: "Telegram payments not supported"}`, not to
`{success: false, error: "User not identified"}`: a `MainButton`-support
check sits between the platform-presence check and the identity check. -/
theorem purchase_mainButton_absent_counterexample :
    c5Scenario.env.webApp = true ∧ c5Scenario.env.userId = none ∧
      (purchaseItem "gem" 5 "Gem" c5Scenario).1 =
        [{ success := false, error := some "Telegram payments not supported" }] ∧
      ({ success := false, error := some "Telegram payments not supported" } : PurchaseResult) ≠
        { success := false, error := some "User not identified" } := by
  refine ⟨rfl, rfl, ?_, by decide⟩
  simp [purchaseItem, createTelegramPayment, c5Scenario]

/-- C5 (amended): A purchase issued while the platform is available
*with its `MainButton` present* but with no resolvable user id (no truthy
`initDataUnsafe.user.id`) resolves exactly to `{success: false, error: "User
not identified"}` with no side effect; the checks short-circuit in the order
platform presence, `MainButton` support, identity. -/
theorem purchase_user_not_identified (itemId : String) (starsCost : Nat) (itemName : String)
    (sc : PurchaseScenario) (hweb : sc.env.webApp = true) (hmb : sc.env.mainButton = true)
    (huser : sc.env.userId.getD 0 = 0) :
    (purchaseItem itemId starsCost itemName sc).1 =
        [{ success := false, error := some "User not identified" }] ∧
      (purchaseItem itemId starsCost itemName sc).2 = [] := by
  constructor <;> simp [purchaseItem, createTelegramPayment, hweb, hmb, huser]

/-- Concrete scenario for the C5 witness: full platform, no user. -/
def c5WitnessScenario : PurchaseScenario :=
  ⟨⟨true, true, none⟩, none, none, ⟨true, 0, 0⟩⟩

/-- Witness for `purchase_user_not_identified` at a concrete scenario. -/
theorem purchase_user_not_identified_witness :
    (purchaseItem "gem" 5 "Gem" c5WitnessScenario).1 =
        [{ success := false, error := some "User not identified" }] ∧
      (purchaseItem "gem" 5 "Gem" c5WitnessScenario).2 = [] :=
  purchase_user_not_identified "gem" 5 "Gem" c5WitnessScenario rfl rfl rfl

/-- Concrete scenario for the C8 counterexample: full environment, click at
1000 ms, successful draw at clock 1234. -/
def c8Scenario : PurchaseScenario :=
  ⟨⟨true, true, some 42⟩, none, some 1000, ⟨true, 0, 1234⟩⟩

/-- C8 (counterexample to the claim as stated): In a scenario in which
the remote-invoice strategy would contact the backend, the code performs no
network request at all, and the settled result is the simulated direct
payment result — it carries no `invoice_id` and not the "Invoice sent!"
message: the remote-invoice strategy does not exist in the code. -/
theorem purchase_no_backend_counterexample :
    ((purchaseItem "item1" 10 "Sword" c8Scenario).2.all
        (fun e => ! e.isNetworkRequest)) = true ∧
      promiseOutcome (purchaseItem "item1" 10 "Sword" c8Scenario).1 =
        some { success := true, payment_id := some "telegram_stars_1234",
               item_id := some "item1",
               message := some "Payment completed successfully via Telegram Stars" } ∧
      ({ success := true, payment_id := some "telegram_stars_1234",
         item_id := some "item1",
         message := some "Payment completed successfully via Telegram Stars" }
        : PurchaseResult).invoice_id = none := by
  refine ⟨rfl, ?_, rfl⟩
  rfl

/-- C8 (amended): Only the direct-UI strategy is implemented: for every
scenario, the purchase flow issues no backend network request and no resolved
result ever carries an `invoice_id` (the remote-invoice code was removed;
there is no strategy configuration). -/
theorem purchase_direct_only (itemId : String) (starsCost : Nat) (itemName : String)
    (sc : PurchaseScenario) :
    ((purchaseItem itemId starsCost itemName sc).2.all
        (fun e => ! e.isNetworkRequest)) = true ∧
      ((purchaseItem itemId starsCost itemName sc).1.all
        (fun r => r.invoice_id.isNone)) = true := by
  rcases sc with ⟨⟨webApp, mainButton, userId⟩, setupFails, clickAt, draw⟩
  simp only [purchaseItem, createTelegramPayment, setupMainButtonPayment]
  rcases setupFails with _ | m <;> rcases clickAt with _ | t <;>
    split_ifs <;>
      try simp [Effect.isNetworkRequest, timeoutResult, processTelegramStarsPayment,
                simulate_invoice_id_none]
  all_goals
    split_ifs <;>
      simp [Effect.isNetworkRequest, timeoutResult, processTelegramStarsPayment,
            simulate_invoice_id_none]

/-- C9: When the purchase is confirmed by a user click (before the
timeout), no platform payment primitive is ever invoked — the outcome is the
simulated random draw's result, which is among the resolved values — and that
result is either `{success: true, payment_id: "telegram_stars_" + Date.now(),
item_id: the requested item, message: "Payment completed successfully via
Telegram Stars"}` or `{success: false, error: e}` with `e` one of the four
fixed failure strings. -/
theorem clicked_purchase_simulated (itemId : String) (starsCost : Nat) (itemName : String)
    (sc : PurchaseScenario) (hweb : sc.env.webApp = true) (hmb : sc.env.mainButton = true)
    (huser : sc.env.userId.getD 0 ≠ 0) (hsetup : sc.setupFails = none)
    (t : Nat) (hclick : sc.clickAt = some t) (ht : t < PAYMENT_TIMEOUT_MS) :
    Effect.paymentPrimitive ∉ (purchaseItem itemId starsCost itemName sc).2 ∧
      processTelegramStarsPayment itemId sc.draw ∈ (purchaseItem itemId starsCost itemName sc).1 ∧
      (sc.draw.success = true →
        processTelegramStarsPayment itemId sc.draw =
          { success := true,
            payment_id := some ("telegram_stars_" ++ toString sc.draw.now),
            item_id := some itemId,
            message := some "Payment completed successfully via Telegram Stars" }) ∧
      (sc.draw.success = false →
        (processTelegramStarsPayment itemId sc.draw).success = false ∧
          (processTelegramStarsPayment itemId sc.draw).error ∈ simulateErrors.map some) := by
  refine ⟨?_, ?_, ?_, ?_⟩
  · by_cases hrace : t + SIMULATE_DELAY_MS < PAYMENT_TIMEOUT_MS <;>
      simp [purchaseItem, createTelegramPayment, setupMainButtonPayment,
            hweb, hmb, huser, hsetup, hclick, ht, hrace]
  · by_cases hrace : t + SIMULATE_DELAY_MS < PAYMENT_TIMEOUT_MS <;>
      simp [purchaseItem, createTelegramPayment, setupMainButtonPayment,
            hweb, hmb, huser, hsetup, hclick, ht, hrace]
  · intro hs
    simp [processTelegramStarsPayment, simulateTelegramPayment, hs]
  · intro hs
    constructor
    · simp [processTelegramStarsPayment, simulateTelegramPayment, hs]
    · have hm : (processTelegramStarsPayment itemId sc.draw).error =
          some (simulateErrors.get ⟨sc.draw.errIdx.val, sc.draw.errIdx.isLt⟩) := by
        simp [processTelegramStarsPayment, simulateTelegramPayment, hs]
      rw [hm]
      exact List.mem_map_of_mem some (List.get_mem _ _ _)

/-- Concrete scenario for the C9 witness: full environment, click at 1000 ms,
failing draw picking the second error string. -/
def c9Scenario : PurchaseScenario :=
  ⟨⟨true, true, some 9⟩, none, some 1000, ⟨false, 1, 500⟩⟩

/-- Witness for `clicked_purchase_simulated` at a concrete scenario. -/
theorem clicked_purchase_simulated_witness :
    Effect.paymentPrimitive ∉ (purchaseItem "gem" 5 "Gem" c9Scenario).2 ∧
      processTelegramStarsPayment "gem" c9Scenario.draw ∈
        (purchaseItem "gem" 5 "Gem" c9Scenario).1 ∧
      (c9Scenario.draw.success = true →
        processTelegramStarsPayment "gem" c9Scenario.draw =
          { success := true,
            payment_id := some ("telegram_stars_" ++ toString c9Scenario.draw.now),
            item_id := some "gem",
            message := some "Payment completed successfully via Telegram Stars" }) ∧
      (c9Scenario.draw.success = false →
        (processTelegramStarsPayment "gem" c9Scenario.draw).success = false ∧
          (processTelegramStarsPayment "gem" c9Scenario.draw).error ∈
            simulateErrors.map some) :=
  clicked_purchase_simulated "gem" 5 "Gem" c9Scenario rfl rfl (by decide) rfl
    1000 rfl (by decide)

/-! ## AdsGram detection and readiness (source lines 274–341)

The mutable `adsState` object is embedded as `AdsState` (only the fields the
claims concern: `ready` and `globalName`; `methodType`, `controller` and
`methodName` are set by elided SDK-specific code and unread by the embedded
operations).  The ambient globals are `AdsEnv`. -/

/-- State of the `adsState` object (source lines 274–280). -/
structure AdsState where
  ready : Bool
  globalName : Option String
deriving Repr, DecidableEq

/-- Initial `adsState` at module load. -/
def initialAdsState : AdsState := { ready := false, globalName := none }

/-- Candidate global names probed by `detectAdsGram`, in source order
(source line 284). -/
def candidateNames : List String :=
  ["AdsGram", "Adsgram", "AdsGramSDK", "AdsgramSDK", "sad", "Ads", "adsgram"]

/-- Ambient globals seen by detection: `truthy n` is the truthiness of
`window[n]`; `sadAdsGram` / `sadAdsgram` the truthiness of `window.sad.AdsGram`
and `window.sad.Adsgram`; `sdkInitSucceeds` whether the (elided) SDK-specific
initialization succeeds when a global has been detected. -/
structure AdsEnv where
  truthy : String → Bool
  sadAdsGram : Bool
  sadAdsgram : Bool
  sdkInitSucceeds : Bool

/-- What `detectAdsGram` returns when it finds something: a global from the
exact-name loop, or the nested `sad`-namespace object from the fallback. -/
inductive Detected where
  | foundGlobal (name : String)
  | sadNested
deriving Repr, DecidableEq

/-- The `for (const name of candidateNames)` loop: the first candidate whose
global is truthy. -/
def findCandidate (truthy : String → Bool) : List String → Option String
  | [] => none
  | n :: rest => if truthy n then some n else findCandidate truthy rest

/-- Function `detectAdsGram` (source lines 282–298): the exact-name loop,
then the nested-namespace fallback `window.sad.AdsGram || window.sad.Adsgram`;
records the detected name in `adsState.globalName`. -/
def detectAdsGram (env : AdsEnv) (s : AdsState) : Option Detected × AdsState :=
  match findCandidate env.truthy candidateNames with
  | some n => (some (.foundGlobal n), { s with globalName := some n })
  | none =>
      if env.truthy "sad" && (env.sadAdsGram || env.sadAdsgram) then
        (some .sadNested, { s with globalName := some "sad.AdsGram" })
      else (none, s)

/-- Variant of `detectAdsGram` with the nested-namespace fallback branch
removed (the refinement target of C10). -/
def detectAdsGramNoFallback (env : AdsEnv) (s : AdsState) : Option Detected × AdsState :=
  match findCandidate env.truthy candidateNames with
  | some n => (some (.foundGlobal n), { s with globalName := some n })
  | none => (none, s)

/-- If the candidate loop found nothing, every candidate's global is falsy. -/
theorem findCandidate_eq_none {truthy : String → Bool} :
    ∀ {l : List String} {n : String}, n ∈ l → findCandidate truthy l = none →
      truthy n = false := by
  intro l
  induction l with
  | nil => intro n h; cases h
  | cons a rest ih =>
      intro n hn hf
      rw [findCandidate] at hf
      by_cases ha : truthy a
      · simp [ha] at hf
      · rcases List.mem_cons.mp hn with rfl | hn'
        · simpa using ha
        · exact ih hn' (by simpa [ha] using hf)

/-- A found candidate is one of the names in the list. -/
theorem findCandidate_mem {truthy : String → Bool} :
    ∀ {l : List String} {n : String}, findCandidate truthy l = some n → n ∈ l := by
  intro l
  induction l with
  | nil => intro n h; simp [findCandidate] at h
  | cons a rest ih =>
      intro n hf
      rw [findCandidate] at hf
      by_cases ha : truthy a
      · simp [ha] at hf
        simp [hf]
      · simp [ha] at hf
        exact List.mem_cons_of_mem a (ih hf)

/-- C10: Because `'sad'` itself is in the exact-match candidate list, the
nested-namespace fallback of `detectAdsGram` is unreachable: on every
environment and state, `detectAdsGram` agrees with the same function with the
fallback branch removed, and `globalName` is only ever left unchanged or set
to one of the exact candidate names — never to `'sad.AdsGram'`. -/
theorem detectAdsGram_fallback_unreachable (env : AdsEnv) (s : AdsState) :
    detectAdsGram env s = detectAdsGramNoFallback env s ∧
      ((detectAdsGram env s).2.globalName = s.globalName ∨
        ∃ n, n ∈ candidateNames ∧ (detectAdsGram env s).2.globalName = some n) ∧
      ("sad.AdsGram" ∈ candidateNames) = False := by
  refine ⟨?_, ?_, by simp [candidateNames]⟩
  · cases hf : findCandidate env.truthy candidateNames with
    | some n => simp [detectAdsGram, detectAdsGramNoFallback, hf]
    | none =>
        have hsad : env.truthy "sad" = false :=
          findCandidate_eq_none (by simp [candidateNames]) hf
        simp [detectAdsGram, detectAdsGramNoFallback, hf, hsad]
  · cases hf : findCandidate env.truthy candidateNames with
    | some n =>
        right
        exact ⟨n, findCandidate_mem hf, by simp [detectAdsGram, hf]⟩
    | none =>
        have hsad : env.truthy "sad" = false :=
          findCandidate_eq_none (by simp [candidateNames]) hf
        left
        simp [detectAdsGram, hf, hsad]

/-- Modelled from the spec: `initializeAdsGramIfPossible` (source lines
300–305) calls `detectAdsGram` and returns early when nothing is found; the
rest of its body is elided in the source (`// ... rest of AdsGram
initialization (unchanged)`).  Per spec §4.2, when a global is detected it
attempts SDK-specific initialization, whose success sets `ready := true`;
nothing ever sets `ready` back to `false`. -/
def initializeAdsGramIfPossible (env : AdsEnv) (s : AdsState) : AdsState :=
  match detectAdsGram env s with
  | (none, s') => s'
  | (some _, s') => if env.sdkInitSucceeds then { s' with ready := true } else s'

/-- Operations that touch `adsState` after load: one tick of the 700 ms
`initTimer` (source lines 331–341), a call to the post-swap
`PlayDeck_PreloadAds` (lines 320–323), a call to `PlayDeck_AreAdsAvailable`
(read-only, lines 309–318), and the `exposeRealAdFunctions` swap itself
(which only reassigns `window` functions, lines 308–326). -/
inductive AdsOp where
  | pollTick (env : AdsEnv)
  | preloadAds (env : AdsEnv)
  | areAdsAvailable
  | exposeSwap

/-- Effect of one operation on `adsState`: both the timer tick and
`PreloadAds` run `initializeAdsGramIfPossible` only while not ready; the
other operations do not write the state. -/
def adsStep : AdsOp → AdsState → AdsState
  | .pollTick env, s => if s.ready then s else initializeAdsGramIfPossible env s
  | .preloadAds env, s => if s.ready then s else initializeAdsGramIfPossible env s
  | .areAdsAvailable, s => s
  | .exposeSwap, s => s

/-- Run a sequence of operations on `adsState`. -/
def runAdsOps (ops : List AdsOp) (s : AdsState) : AdsState :=
  ops.foldl (fun s op => adsStep op s) s

/-- Detection only writes `globalName`, never `ready`. -/
theorem detectAdsGram_preserves_ready (env : AdsEnv) (s : AdsState) :
    (detectAdsGram env s).2.ready = s.ready := by
  rw [detectAdsGram]
  cases findCandidate env.truthy candidateNames <;> simp
  split_ifs <;> rfl

/-- Initialization never unsets `ready`. -/
theorem initialize_preserves_ready (env : AdsEnv) (s : AdsState) (h : s.ready = true) :
    (initializeAdsGramIfPossible env s).ready = true := by
  rw [initializeAdsGramIfPossible]
  have hr := detectAdsGram_preserves_ready env s
  rcases hd : detectAdsGram env s with ⟨found, s'⟩
  rw [hd] at hr
  cases found with
  | none => exact hr.trans h
  | some d =>
      split_ifs with hinit
      · rfl
      · exact hr.trans h

/-- C6: Once `adsState.ready` is true it stays true under every sequence of
subsequent detection-poll ticks, `PreloadAds` calls, `AreAdsAvailable` calls
and ad-function swaps: `ready` is monotonic false→true for the page
lifetime. -/
theorem adsState_ready_monotonic (ops : List AdsOp) (s : AdsState) (h : s.ready = true) :
    (runAdsOps ops s).ready = true := by
  induction ops generalizing s with
  | nil => simpa [runAdsOps] using h
  | cons op rest ih =>
      rw [runAdsOps, List.foldl_cons]
      have hstep : (adsStep op s).ready = true := by
        cases op with
        | pollTick env => simp [adsStep, h]
        | preloadAds env => simp [adsStep, h]
        | areAdsAvailable => simpa [adsStep] using h
        | exposeSwap => simpa [adsStep] using h
      exact ih (adsStep op s) hstep

/-- Concrete environment for the C6 witness: no ad globals present. -/
def emptyAdsEnv : AdsEnv := ⟨fun _ => false, false, false, false⟩

/-- Witness for `adsState_ready_monotonic` at a concrete ready state and
operation sequence. -/
theorem adsState_ready_monotonic_witness :
    (runAdsOps [AdsOp.pollTick emptyAdsEnv, AdsOp.preloadAds emptyAdsEnv,
      AdsOp.exposeSwap, AdsOp.areAdsAvailable] ⟨true, some "AdsGram"⟩).ready = true :=
  adsState_ready_monotonic _ ⟨true, some "AdsGram"⟩ rfl

/-! ## Stub surface (source lines 52–73, 250, 308–326) -/

/-- The externally-callable `PlayDeck_*` function surface. -/
inductive BridgeFn where
  | setLoading
  | gameEnd
  | analytics
  | areAdsAvailable
  | preloadAds
  | showRewardedAdForBlock
  | showTaskForBlock
  | showRewardedAd
  | buyItemWithStars
deriving Repr, DecidableEq, Fintype

/-- Functions assigned onto `window` synchronously at module load, in source
order: the eight stubs of lines 53–73 and the full implementation
`PlayDeck_BuyItemWithStars` of line 250 — all before the first 700 ms
detection-timer tick can fire. -/
def installedAtLoad : List BridgeFn :=
  [.setLoading, .gameEnd, .analytics, .areAdsAvailable, .preloadAds,
   .showRewardedAdForBlock, .showTaskForBlock, .showRewardedAd, .buyItemWithStars]

/-- Whether the load-time implementation is one of the `(stub)` placeholders
(lines 53–73); `PlayDeck_BuyItemWithStars` is installed directly as its full
implementation (line 250). -/
def isStubAtLoad : BridgeFn → Bool
  | .buyItemWithStars => false
  | _ => true

/-- Non-logging effects performed by each load-time stub when called: the
`GameEnd` stub posts `gameEnd` to the parent frame (line 56); the
`ShowRewardedAdForBlock` / `ShowTaskForBlock` stubs report failure to the
host runtime via `sendToUnity` (lines 63, 67); `ShowRewardedAd` delegates to
`ShowRewardedAdForBlock` (line 72); the rest only log.  (For
`buyItemWithStars` — not a stub — the effects are those of the purchase flow,
not listed here.) -/
def stubEffects : BridgeFn → List Effect
  | .setLoading => []
  | .gameEnd => [.postMessageParent "gameEnd"]
  | .analytics => []
  | .areAdsAvailable => []
  | .preloadAds => []
  | .showRewardedAdForBlock => [.sendUnityMsg "AdsManager" "OnAdCompleted" "false"]
  | .showTaskForBlock => [.sendUnityMsg "AdsManager" "OnTaskCompleted" "false"]
  | .showRewardedAd => [.sendUnityMsg "AdsManager" "OnAdCompleted" "false"]
  | .buyItemWithStars => []

/-- Modelled from the spec: the set of functions replaced by
`exposeRealAdFunctions` once detection settles.  The source shows the
replacement of `PlayDeck_AreAdsAvailable` and `PlayDeck_PreloadAds` (lines
309–323) and elides the rest (`// ... rest of ad function implementations
(unchanged)`); per spec §4.2, the rewarded-ad and task-ad request functions
are also swapped (`ShowRewardedAd` keeps delegating to the swapped block
function).  Purchase and lifecycle-event functions are never replaced. -/
def replacedByExposeReal : List BridgeFn :=
  [.areAdsAvailable, .preloadAds, .showRewardedAdForBlock, .showTaskForBlock]

/-- C7 (counterexample to the claim as stated): the load-time stubs are not
all logging no-ops — the `GameEnd` stub posts a message to the parent frame
and the `ShowRewardedAdForBlock` stub sends a failure message to the host
runtime — and `BuyItemWithStars` is not installed as a stub at all but as its
full implementation. -/
theorem stub_surface_counterexample :
    stubEffects BridgeFn.gameEnd = [Effect.postMessageParent "gameEnd"] ∧
      stubEffects BridgeFn.gameEnd ≠ [] ∧
      stubEffects BridgeFn.showRewardedAdForBlock =
        [Effect.sendUnityMsg "AdsManager" "OnAdCompleted" "false"] ∧
      stubEffects BridgeFn.showRewardedAdForBlock ≠ [] ∧
      isStubAtLoad BridgeFn.buyItemWithStars = false := by
  refine ⟨rfl, ?_, rfl, ?_, rfl⟩ <;> simp [stubEffects]

/-- C7 (amended): every externally-callable function is installed
synchronously at module load, before any asynchronous detection completes
(so a host call never finds an undefined function); exactly the ad-related
subset `AreAdsAvailable`, `PreloadAds`, `ShowRewardedAdForBlock`,
`ShowTaskForBlock` is replaced after detection; all functions except
`BuyItemWithStars` start as stubs, and the stubs have no effect beyond
logging except that `GameEnd` notifies the parent frame and the ad-show
stubs report failure to the host runtime via Message Delivery. -/
theorem stub_surface_installed_at_load :
    (∀ f : BridgeFn, f ∈ installedAtLoad) ∧
      installedAtLoad.length = 9 ∧
      replacedByExposeReal =
        [.areAdsAvailable, .preloadAds, .showRewardedAdForBlock, .showTaskForBlock] ∧
      isStubAtLoad BridgeFn.buyItemWithStars = false ∧
      (∀ f : BridgeFn, f ≠ BridgeFn.buyItemWithStars → isStubAtLoad f = true) ∧
      stubEffects BridgeFn.setLoading = [] ∧
      stubEffects BridgeFn.analytics = [] ∧
      stubEffects BridgeFn.areAdsAvailable = [] ∧
      stubEffects BridgeFn.preloadAds = [] ∧
      stubEffects BridgeFn.gameEnd = [Effect.postMessageParent "gameEnd"] ∧
      stubEffects BridgeFn.showRewardedAdForBlock =
        [Effect.sendUnityMsg "AdsManager" "OnAdCompleted" "false"] ∧
      stubEffects BridgeFn.showTaskForBlock =
        [Effect.sendUnityMsg "AdsManager" "OnTaskCompleted" "false"] ∧
      stubEffects BridgeFn.showRewardedAd =
        [Effect.sendUnityMsg "AdsManager" "OnAdCompleted" "false"] := by
  refine ⟨?_, rfl, rfl, rfl, ?_, rfl, rfl, rfl, rfl, rfl, rfl, rfl, rfl⟩
  · intro f
    cases f <;> simp [installedAtLoad]
  · intro f hf
    cases f <;> simp [isStubAtLoad]
    exact absurd rfl hf

/-- Witness for `stub_surface_installed_at_load`: its hypotheses are only the
inner universally-quantified implications; instantiate the second at a
concrete function. -/
theorem stub_surface_installed_at_load_witness :
    BridgeFn.gameEnd ∈ installedAtLoad ∧ isStubAtLoad BridgeFn.gameEnd = true :=
  ⟨(stub_surface_installed_at_load.1) BridgeFn.gameEnd,
    (stub_surface_installed_at_load.2.2.2.2.1) BridgeFn.gameEnd (by simp)⟩

end PlaydeckBridge
